import Mathlib

/- Verification of the AI Writing Tools screenshot utility.

   Shallow embedding of the screen-region capture controller
   (src/Windows_and_Linux/ScreenshotTool.py) and of the AI provider
   dispatch adapters (src/Windows_and_Linux/aiprovider.py).

   Machine integers are modelled as Int (Python ints are unbounded and the
   Qt coordinate arithmetic used here cannot overflow in practice); errors
   raised by fallible library calls are modelled as Except values that the
   embedded adapter code branches on exactly where the Python try/except
   blocks do. -/

namespace WritingTools

/-! Python string primitives used by the adapters. -/

/-- Python str.rstrip with the single newline character as argument:
removes every trailing newline character. -/
def pyRstripNewlines (s : String) : String :=
  String.mk (s.data.reverse.dropWhile (fun c => c = '\n')).reverse

/-- The ASCII whitespace characters recognised by Python str.strip on
ASCII text: space, tab, newline, carriage return, vertical tab, form feed. -/
def pyIsSpace (c : Char) : Bool :=
  c = ' ' || c = '\t' || c = '\n' || c = '\r' || c = '\x0b' || c = '\x0c'

/-- Python str.strip with no argument: removes leading and trailing
whitespace. -/
def pyStrip (s : String) : String :=
  String.mk ((s.data.dropWhile pyIsSpace).reverse.dropWhile pyIsSpace).reverse

/-! The screen-region capture controller: ScreenshotTool.py. -/

/-- A QPoint in overlay-local coordinates. -/
structure Point where
  x : Int
  y : Int
deriving DecidableEq, Repr

/-- A QRect as Qt stores it: corners x1 y1 (top left) and x2 y2
(bottom right). -/
structure Rect where
  x1 : Int
  y1 : Int
  x2 : Int
  y2 : Int
deriving DecidableEq, Repr

/-- QRect.left returns the stored x1. -/
def Rect.left (r : Rect) : Int := r.x1

/-- QRect.top returns the stored y1. -/
def Rect.top (r : Rect) : Int := r.y1

/-- QRect.right returns the stored x2. -/
def Rect.right (r : Rect) : Int := r.x2

/-- QRect.bottom returns the stored y2. -/
def Rect.bottom (r : Rect) : Int := r.y2

/-- The QRect constructor taking two points: the first is stored as the
top-left corner, the second as the bottom-right corner. -/
def rectFromPoints (p1 p2 : Point) : Rect :=
  { x1 := p1.x, y1 := p1.y, x2 := p2.x, y2 := p2.y }

/-- QRect.normalized as implemented in Qt 6 (the toolkit wrapped by
PySide6): the x corners are swapped when x2 < x1, and the y corners are
swapped when y2 < y1. -/
def Rect.normalized (r : Rect) : Rect :=
  { x1 := if r.x2 < r.x1 then r.x2 else r.x1
    y1 := if r.y2 < r.y1 then r.y2 else r.y1
    x2 := if r.x2 < r.x1 then r.x1 else r.x2
    y2 := if r.y2 < r.y1 then r.y1 else r.y2 }

/-- The monitor descriptor recorded at construction: the mss monitor
mapping with keys left, top, width, height. -/
structure Monitor where
  left : Int
  top : Int
  width : Int
  height : Int
deriving DecidableEq, Repr

/-- The mss grab region dictionary built by capture_screenshot. -/
structure Region where
  top : Int
  left : Int
  width : Int
  height : Int
deriving DecidableEq, Repr

/-- ScreenshotTool.capture_screenshot: normalizes the rectangle spanned by
begin and end, computes width and height as right minus left and bottom
minus top of the normalized rectangle, rejects the capture when either is
nonpositive, and otherwise translates to absolute screen coordinates by
adding the monitor origin and hands the region to the deferred
finish_capture step. Returns the grab region, or none when no capture is
attempted. The leading truthiness guard on the two QPoint fields is always
taken because PySide6 QPoint defines no boolean conversion. -/
def capture_screenshot (begin end_ : Point) (monitor : Monitor) : Option Region :=
  let rect := (rectFromPoints begin end_).normalized
  let x1 := rect.left
  let y1 := rect.top
  let x2 := rect.right
  let y2 := rect.bottom
  let width := x2 - x1
  let height := y2 - y1
  if width ≤ 0 ∨ height ≤ 0 then none
  else some { top := y1 + monitor.top, left := x1 + monitor.left,
              width := width, height := height }

/-- Pixel dimensions of a raster image. -/
structure Image where
  width : Int
  height : Int
deriving DecidableEq, Repr

/-- Modelled from the spec: the mss screen grab called by finish_capture is
not part of this repository; per the spec it re-reads a fresh pixel
snapshot of exactly the target rectangle, so the grabbed image has the
region dimensions. -/
def grab (region : Region) : Image :=
  { width := region.width, height := region.height }

/-- ScreenshotTool finish_capture helper: grabs the region, encodes the
grabbed snapshot as PNG at the timestamped path, and emits the completion
signal carrying that path. The saved image is the grabbed snapshot. -/
def finish_capture (region : Region) : Image := grab region

/-- The mutable selection state of the ScreenshotTool widget. -/
structure ToolState where
  begin : Point
  end_ : Point
  is_selecting : Bool
deriving DecidableEq, Repr

/-- ScreenshotTool.mouseReleaseEvent: when a selection is live and the
anchor differs from the current point, run the capture procedure; the
overlay then closes in every case. Returns the capture region when one is
produced, none otherwise. -/
def mouseReleaseEvent (s : ToolState) (monitor : Monitor) : Option Region :=
  if s.is_selecting then
    if s.begin ≠ s.end_ then capture_screenshot s.begin s.end_ monitor else none
  else none

/-- The key presses the tool reacts to. -/
inductive Key
  | escape
  | returnKey
  | enterKey
  | other
deriving DecidableEq, Repr

/-- ScreenshotTool.keyPressEvent: Escape closes the overlay with no
capture; Return or Enter run the capture procedure exactly when a
selection is live and its anchor differs from the current point; other
keys do nothing. Returns the capture region when one is produced. -/
def keyPressEvent (s : ToolState) (monitor : Monitor) (k : Key) : Option Region :=
  match k with
  | Key.escape => none
  | Key.returnKey | Key.enterKey =>
      if s.is_selecting ∧ s.begin ≠ s.end_ then
        capture_screenshot s.begin s.end_ monitor
      else none
  | Key.other => none

/-! The provider dispatch adapters: aiprovider.py. -/

/-- A notification surfaced by an adapter to the application: an output
fragment (output_ready_signal), the completion notification
(replace_text with argument True), or a message box request
(show_message_signal with a title and a body). -/
inductive Notif
  | fragment (text : String)
  | complete
  | blockedMsg (title body : String)
deriving DecidableEq, Repr

/-- The texts of the fragment notifications of a surfaced sequence, in
order. -/
def fragTexts : List Notif → List String
  | [] => []
  | Notif.fragment t :: rest => t :: fragTexts rest
  | Notif.complete :: rest => fragTexts rest
  | Notif.blockedMsg _ _ :: rest => fragTexts rest

/-- One upstream event observed while iterating a streamed response: a
chunk carrying its payload, or a transport error raised by the iterator
while pulling the next chunk. -/
inductive StreamEvent (α : Type)
  | chunk (data : α)
  | err
deriving DecidableEq, Repr

/-- The cooperative cancellation flag as the streaming loop observes it.
In the single-thread dispatch model of the application, a cancel call is
observed only at the per-iteration flag check; cancelAt of some k means
the checks numbered 0 up to k - 1 read false and every later check reads
true (the flag, once set, is only cleared by the finally clause); none
means cancel is never called during the request. -/
def flagAt (cancelAt : Option Nat) (i : Nat) : Bool :=
  match cancelAt with
  | none => false
  | some k => decide (k ≤ i)

/-- The synthetic fragment surfaced by the except clause of both
streaming loops. -/
def streamErrorText : String := "An error occurred while streaming."

/-- The streaming for-loop of Gemini15FlashProvider.get_response at
its iteration number i: each iteration first pulls the next chunk (a
transport error raised by the pull lands in the except clause, which
surfaces the single synthetic error fragment and ends the loop), then
checks close_requested and either breaks or emits the chunk text with
trailing newlines stripped. -/
def geminiLoop (cancelAt : Option Nat) : Nat → List (StreamEvent String) → List Notif
  | _, [] => []
  | _, StreamEvent.err :: _ => [Notif.fragment streamErrorText]
  | i, StreamEvent.chunk t :: rest =>
      if flagAt cancelAt i then []
      else Notif.fragment (pyRstripNewlines t) :: geminiLoop cancelAt (i + 1) rest

/-- The response object returned by the Gemini generate_content call: the
prompt feedback block reason (as a boolean) and the chunk stream the
iterator yields. -/
structure GeminiResponse where
  blocked : Bool
  events : List (StreamEvent String)
deriving Repr

/-- Gemini15FlashProvider.get_response: sets close_requested to False,
sends the request; when the safety filter blocked the prompt it emits the
Content Blocked message box and returns; otherwise it runs the streaming
loop, whose finally clause sets close_requested back to False and emits
the completion notification. close0 is the value of the instance field
close_requested on entry; the result is the surfaced notification
sequence paired with the value of close_requested at return. -/
def gemini_get_response (close0 : Bool) (resp : GeminiResponse)
    (cancelAt : Option Nat) : List Notif × Bool :=
  let _ := close0
  if resp.blocked then
    ([Notif.blockedMsg "Content Blocked"
        "The generated content was blocked due to safety settings."], false)
  else
    (geminiLoop cancelAt 0 resp.events ++ [Notif.complete], false)

/-- The streaming for-loop of OpenAICompatibleProvider.get_response: as
the Gemini loop, except that a chunk is emitted only when its delta
content is truthy (present and nonempty). -/
def openaiLoop (cancelAt : Option Nat) :
    Nat → List (StreamEvent (Option String)) → List Notif
  | _, [] => []
  | _, StreamEvent.err :: _ => [Notif.fragment streamErrorText]
  | i, StreamEvent.chunk c :: rest =>
      if flagAt cancelAt i then []
      else
        match c with
        | none => openaiLoop cancelAt (i + 1) rest
        | some t =>
            if t = "" then openaiLoop cancelAt (i + 1) rest
            else Notif.fragment (pyRstripNewlines t) :: openaiLoop cancelAt (i + 1) rest

/-- The notification, if any, that one iteration of the OpenAI streaming
loop surfaces for a pulled delta content (used to state the loop output):
nothing for a falsy content, otherwise the content with trailing newlines
stripped. -/
def openaiEmit : Option String → Option Notif
  | none => none
  | some t => if t = "" then none else some (Notif.fragment (pyRstripNewlines t))

/-- The complete (non-streamed) chat completion response: the content of
the message of its first choice. -/
structure OpenAIFullResponse where
  content : String
deriving DecidableEq, Repr

/-- OpenAICompatibleProvider.get_response: sets close_requested to
False and reads the streaming flag from the global configuration. With
streaming on it runs the streaming loop whose finally clause closes the
response, sets close_requested back to False and emits the completion
notification; with streaming off it emits one output notification holding
the complete response content stripped of surrounding whitespace,
followed by the completion notification. close0 is the value of the
instance field close_requested on entry; the result is the surfaced
notification sequence paired with close_requested at return. -/
def openai_get_response (close0 : Bool) (streaming : Bool)
    (events : List (StreamEvent (Option String))) (full : OpenAIFullResponse)
    (cancelAt : Option Nat) : List Notif × Bool :=
  let _ := close0
  if streaming then
    (openaiLoop cancelAt 0 events ++ [Notif.complete], false)
  else
    ([Notif.fragment (pyStrip full.content), Notif.complete], false)

/-- Gemini15FlashProvider.cancel and OpenAICompatibleProvider.cancel:
set the close_requested flag. -/
def cancel (_close_requested : Bool) : Bool := true

/-- The outcome delivered to the ImageAnalysisWindow by analyze_image:
either the answer text or a displayable error string. -/
inductive AnalyzeOutcome
  | answer (text : String)
  | errorText (text : String)
deriving DecidableEq, Repr

/-- The non-streamed Gemini generate_content result used by
analyze_image: the block reason of the prompt feedback and the response
text. -/
structure GeminiAnswer where
  blocked : Bool
  text : String
deriving DecidableEq, Repr

/-- Gemini15FlashProvider.analyze_image. loadResult models the
PIL.Image.open call on the screenshot path (an error value carries the
exception message, e.g. for an unreadable or nonexistent path); apiResult
models the generate_content call. A blocked response raises inside the
try block; the except clause catches every failure, logs it, and delivers
the error string in place of an answer. -/
def gemini_analyze_image (loadResult : Except String Unit)
    (apiResult : Except String GeminiAnswer) : AnalyzeOutcome :=
  match loadResult with
  | Except.error e => AnalyzeOutcome.errorText ("Error analyzing image: " ++ e)
  | Except.ok _ =>
      match apiResult with
      | Except.error e => AnalyzeOutcome.errorText ("Error analyzing image: " ++ e)
      | Except.ok a =>
          if a.blocked then
            AnalyzeOutcome.errorText
              ("Error analyzing image: Response was blocked due to safety settings")
          else AnalyzeOutcome.answer a.text

/-- OpenAICompatibleProvider.analyze_image. readResult models opening,
reading and base64-encoding the screenshot file (an error value carries
the exception message); apiResult models the chat completion call and
carries the answer text. The except clause catches every failure, logs
it, and delivers the error string in place of an answer. -/
def openai_analyze_image (readResult : Except String Unit)
    (apiResult : Except String String) : AnalyzeOutcome :=
  match readResult with
  | Except.error e => AnalyzeOutcome.errorText ("Error analyzing image: " ++ e)
  | Except.ok _ =>
      match apiResult with
      | Except.error e => AnalyzeOutcome.errorText ("Error analyzing image: " ++ e)
      | Except.ok t => AnalyzeOutcome.answer t

/-! Helper lemmas. -/

theorem fragTexts_append (a b : List Notif) :
    fragTexts (a ++ b) = fragTexts a ++ fragTexts b := by
  induction a with
  | nil => rfl
  | cons n rest ih => cases n <;> simp [fragTexts, ih]

theorem fragTexts_map_fragment (f : String → String) (xs : List String) :
    fragTexts (xs.map fun s => Notif.fragment (f s)) = xs.map f := by
  induction xs with
  | nil => rfl
  | cons x rest ih => simp [fragTexts, ih]

theorem geminiLoop_chunks (k : Nat) (cs : List String) : ∀ i : Nat,
    geminiLoop (some k) i (cs.map StreamEvent.chunk)
      = ((cs.take (k - i)).map fun s => Notif.fragment (pyRstripNewlines s)) := by
  induction cs with
  | nil => intro i; simp [geminiLoop]
  | cons c rest ih =>
      intro i
      by_cases h : k ≤ i
      · have hk : k - i = 0 := Nat.sub_eq_zero_of_le h
        simp [geminiLoop, flagAt, h, hk]
      · have hk : k - i = (k - (i + 1)) + 1 := by omega
        simp [geminiLoop, flagAt, h, ih (i + 1), hk]

theorem openaiLoop_chunks (k : Nat) (ds : List (Option String)) : ∀ i : Nat,
    openaiLoop (some k) i (ds.map StreamEvent.chunk)
      = (ds.take (k - i)).filterMap openaiEmit := by
  induction ds with
  | nil => intro i; simp [openaiLoop]
  | cons d rest ih =>
      intro i
      by_cases h : k ≤ i
      · have hk : k - i = 0 := Nat.sub_eq_zero_of_le h
        simp [openaiLoop, flagAt, h, hk]
      · have hk : k - i = (k - (i + 1)) + 1 := by omega
        cases d with
        | none => simp [openaiLoop, flagAt, h, ih (i + 1), hk, openaiEmit]
        | some t =>
            by_cases ht : t = "" <;>
              simp [openaiLoop, flagAt, h, ih (i + 1), hk, openaiEmit, ht]

theorem geminiLoop_err (cs : List String) (rest : List (StreamEvent String)) : ∀ i : Nat,
    geminiLoop none i (cs.map StreamEvent.chunk ++ StreamEvent.err :: rest)
      = (cs.map fun s => Notif.fragment (pyRstripNewlines s))
          ++ [Notif.fragment streamErrorText] := by
  induction cs with
  | nil => intro i; simp [geminiLoop]
  | cons c cs ih => intro i; simp [geminiLoop, flagAt, ih (i + 1)]

theorem openaiLoop_err (ds : List (Option String))
    (rest : List (StreamEvent (Option String))) : ∀ i : Nat,
    openaiLoop none i (ds.map StreamEvent.chunk ++ StreamEvent.err :: rest)
      = ds.filterMap openaiEmit ++ [Notif.fragment streamErrorText] := by
  induction ds with
  | nil => intro i; simp [openaiLoop]
  | cons d ds ih =>
      intro i
      cases d with
      | none => simp [openaiLoop, flagAt, ih (i + 1), openaiEmit]
      | some t =>
          by_cases ht : t = "" <;>
            simp [openaiLoop, flagAt, ih (i + 1), openaiEmit, ht]

theorem capture_screenshot_eq (b e : Point) (m : Monitor) :
    capture_screenshot b e m =
      if max b.x e.x - min b.x e.x ≤ 0 ∨ max b.y e.y - min b.y e.y ≤ 0 then none
      else some ⟨min b.y e.y + m.top, min b.x e.x + m.left,
                 max b.x e.x - min b.x e.x, max b.y e.y - min b.y e.y⟩ := by
  simp only [capture_screenshot, rectFromPoints, Rect.normalized, Rect.left, Rect.top,
    Rect.right, Rect.bottom]
  rcases lt_or_le e.x b.x with hx | hx <;> rcases lt_or_le e.y b.y with hy | hy
  · simp [hx, hy, max_eq_left hx.le, min_eq_right hx.le,
      max_eq_left hy.le, min_eq_right hy.le]
  · simp [hx, not_lt.mpr hy, max_eq_left hx.le, min_eq_right hx.le,
      max_eq_right hy, min_eq_left hy]
  · simp [not_lt.mpr hx, hy, max_eq_right hx, min_eq_left hx,
      max_eq_left hy.le, min_eq_right hy.le]
  · simp [not_lt.mpr hx, not_lt.mpr hy, max_eq_right hx, min_eq_left hx,
      max_eq_right hy, min_eq_left hy]

/-! The claims. -/

/-- C1: for every drag gesture whose anchor and current point differ, when
the capture procedure produces a grab region, the image grabbed and saved
by the deferred finish step has pixel dimensions equal to the width and
height of the normalized selection rectangle, i.e. per axis the maximum
minus the minimum of the anchor and current coordinates. -/
theorem c1_capture_dimensions (begin end_ : Point) (monitor : Monitor) (region : Region)
    (hne : begin ≠ end_)
    (hc : capture_screenshot begin end_ monitor = some region) :
    (finish_capture region).width = max begin.x end_.x - min begin.x end_.x ∧
    (finish_capture region).height = max begin.y end_.y - min begin.y end_.y := by
  rw [capture_screenshot_eq] at hc
  split at hc
  · exact Option.noConfusion hc
  · rw [Option.some_inj] at hc
    subst hc
    exact ⟨rfl, rfl⟩

/-- Witness for C1 at the concrete gesture from the origin to the point
(3, 4) on a monitor anchored at the origin. -/
theorem c1_capture_dimensions_witness :
    ((⟨0, 0⟩ : Point) ≠ ⟨3, 4⟩) ∧
    capture_screenshot ⟨0, 0⟩ ⟨3, 4⟩ ⟨0, 0, 100, 100⟩ = some ⟨0, 0, 3, 4⟩ ∧
    ((finish_capture ⟨0, 0, 3, 4⟩).width
        = max (0 : Int) 3 - min (0 : Int) 3 ∧
      (finish_capture ⟨0, 0, 3, 4⟩).height
        = max (0 : Int) 4 - min (0 : Int) 4) :=
  ⟨by decide, by decide,
    c1_capture_dimensions ⟨0, 0⟩ ⟨3, 4⟩ ⟨0, 0, 100, 100⟩ ⟨0, 0, 3, 4⟩
      (by decide) (by decide)⟩

/-- C2: with streaming enabled and a provider emitting exactly the
fragments Hel, lo, world (with a leading space), both adapters surface
exactly three fragment notifications, each the corresponding fragment
with trailing newlines stripped, followed by exactly one completion
notification, and the surfaced fragments concatenate to Hello world. -/
theorem c2_stream_three_fragments :
    gemini_get_response false
        ⟨false, [StreamEvent.chunk "Hel", StreamEvent.chunk "lo",
                 StreamEvent.chunk " world"]⟩ none
      = ([Notif.fragment (pyRstripNewlines "Hel"),
          Notif.fragment (pyRstripNewlines "lo"),
          Notif.fragment (pyRstripNewlines " world"), Notif.complete], false) ∧
    openai_get_response false true
        [StreamEvent.chunk (some "Hel"), StreamEvent.chunk (some "lo"),
         StreamEvent.chunk (some " world")] ⟨""⟩ none
      = ([Notif.fragment (pyRstripNewlines "Hel"),
          Notif.fragment (pyRstripNewlines "lo"),
          Notif.fragment (pyRstripNewlines " world"), Notif.complete], false) ∧
    String.join (fragTexts (gemini_get_response false
        ⟨false, [StreamEvent.chunk "Hel", StreamEvent.chunk "lo",
                 StreamEvent.chunk " world"]⟩ none).1)
      = "Hello world" := by
  refine ⟨by decide, by decide, by decide⟩

/-- C3: once a streaming loop observes the cancellation flag at check k,
it surfaces zero further fragment notifications: the surfaced fragments
of a Gemini stream are exactly the first k chunk texts with trailing
newlines stripped, and the surfaced notifications of an OpenAI stream are
exactly those of the first k deltas followed by the completion
notification from the finally clause. -/
theorem c3_cancel_stops_fragments (cs : List String) (ds : List (Option String))
    (full : OpenAIFullResponse) (k : Nat) :
    fragTexts (gemini_get_response false ⟨false, cs.map StreamEvent.chunk⟩ (some k)).1
      = (cs.take k).map pyRstripNewlines ∧
    (openai_get_response false true (ds.map StreamEvent.chunk) full (some k)).1
      = (ds.take k).filterMap openaiEmit ++ [Notif.complete] := by
  constructor
  · show fragTexts (geminiLoop (some k) 0 (cs.map StreamEvent.chunk)
        ++ [Notif.complete]) = _
    rw [geminiLoop_chunks, fragTexts_append, fragTexts_map_fragment]
    simp [fragTexts]
  · show openaiLoop (some k) 0 (ds.map StreamEvent.chunk) ++ [Notif.complete] = _
    rw [openaiLoop_chunks]
    simp

/-- C4: analyze_image never raises past the adapter boundary: for every
outcome of the fallible steps, each adapter delivers either the answer or
a displayable error string, and whenever the image load or file read
fails (e.g. an unreadable or nonexistent path) the delivered text is the
error string built from the exception message. -/
theorem c4_analyze_image_no_raise (load : Except String Unit)
    (api : Except String GeminiAnswer) (readR : Except String Unit)
    (apiO : Except String String) :
    ((∃ t, gemini_analyze_image load api = AnalyzeOutcome.answer t) ∨
      (∃ e, gemini_analyze_image load api
          = AnalyzeOutcome.errorText ("Error analyzing image: " ++ e))) ∧
    (∀ e, load = Except.error e →
      gemini_analyze_image load api
        = AnalyzeOutcome.errorText ("Error analyzing image: " ++ e)) ∧
    ((∃ t, openai_analyze_image readR apiO = AnalyzeOutcome.answer t) ∨
      (∃ e, openai_analyze_image readR apiO
          = AnalyzeOutcome.errorText ("Error analyzing image: " ++ e))) ∧
    (∀ e, readR = Except.error e →
      openai_analyze_image readR apiO
        = AnalyzeOutcome.errorText ("Error analyzing image: " ++ e)) := by
  refine ⟨?_, ?_, ?_, ?_⟩
  · cases load with
    | error e => exact Or.inr ⟨e, rfl⟩
    | ok u =>
        cases api with
        | error e => exact Or.inr ⟨e, rfl⟩
        | ok a =>
            by_cases hb : a.blocked
            · exact Or.inr ⟨"Response was blocked due to safety settings",
                by simp [gemini_analyze_image, hb]⟩
            · exact Or.inl ⟨a.text, by simp [gemini_analyze_image, hb]⟩
  · intro e he; subst he; rfl
  · cases readR with
    | error e => exact Or.inr ⟨e, rfl⟩
    | ok u =>
        cases apiO with
        | error e => exact Or.inr ⟨e, rfl⟩
        | ok t => exact Or.inl ⟨t, rfl⟩
  · intro e he; subst he; rfl

/-- Witness for C4 at an unreadable path: both adapters deliver the error
string built from the exception message. -/
theorem c4_analyze_image_no_raise_witness :
    gemini_analyze_image (Except.error "No such file or directory")
        (Except.ok ⟨false, "unused"⟩)
      = AnalyzeOutcome.errorText
          ("Error analyzing image: " ++ "No such file or directory") ∧
    openai_analyze_image (Except.error "No such file or directory")
        (Except.ok "unused")
      = AnalyzeOutcome.errorText
          ("Error analyzing image: " ++ "No such file or directory") :=
  ⟨(c4_analyze_image_no_raise (Except.error "No such file or directory")
      (Except.ok ⟨false, "unused"⟩) (Except.error "No such file or directory")
      (Except.ok "unused")).2.1 "No such file or directory" rfl,
   (c4_analyze_image_no_raise (Except.error "No such file or directory")
      (Except.ok ⟨false, "unused"⟩) (Except.error "No such file or directory")
      (Except.ok "unused")).2.2.2 "No such file or directory" rfl⟩

/-- C5: when the safety filter rejects the request, the Gemini adapter
surfaces exactly the distinct blocked-content message box notification:
zero fragment notifications and no partial text, whatever the upstream
stream and cancellation pattern would have been. -/
theorem c5_blocked_no_fragments (close0 : Bool) (events : List (StreamEvent String))
    (cancelAt : Option Nat) :
    (gemini_get_response close0 ⟨true, events⟩ cancelAt).1
      = [Notif.blockedMsg "Content Blocked"
           "The generated content was blocked due to safety settings."] ∧
    fragTexts (gemini_get_response close0 ⟨true, events⟩ cancelAt).1 = [] :=
  ⟨rfl, rfl⟩

/-- C6: a mid-stream transport error reaches the except clause of the
streaming loop on both adapters: the fragments before the error are
surfaced, then exactly one synthetic error fragment; the events after the
error are never consumed and the request is not retried; the finally
clause still surfaces the completion notification. -/
theorem c6_stream_error_single_fragment (cs : List String)
    (rest : List (StreamEvent String)) (ds : List (Option String))
    (restO : List (StreamEvent (Option String))) (full : OpenAIFullResponse) :
    (gemini_get_response false
        ⟨false, cs.map StreamEvent.chunk ++ StreamEvent.err :: rest⟩ none).1
      = (cs.map fun s => Notif.fragment (pyRstripNewlines s))
          ++ [Notif.fragment streamErrorText, Notif.complete] ∧
    (openai_get_response false true
        (ds.map StreamEvent.chunk ++ StreamEvent.err :: restO) full none).1
      = ds.filterMap openaiEmit
          ++ [Notif.fragment streamErrorText, Notif.complete] := by
  constructor
  · show geminiLoop none 0 (cs.map StreamEvent.chunk ++ StreamEvent.err :: rest)
        ++ [Notif.complete] = _
    rw [geminiLoop_err]
    simp
  · show openaiLoop none 0 (ds.map StreamEvent.chunk ++ StreamEvent.err :: restO)
        ++ [Notif.complete] = _
    rw [openaiLoop_err]
    simp

/-- C7: when the anchor equals the current point at release, or no
selection was ever started, neither the mouse release handler nor any key
press produces a capture region: no screenshot file is written and no
completion notification is emitted. -/
theorem c7_degenerate_no_capture (s : ToolState) (monitor : Monitor)
    (h : s.begin = s.end_ ∨ s.is_selecting = false) :
    mouseReleaseEvent s monitor = none ∧
    ∀ k, keyPressEvent s monitor k = none := by
  constructor
  · rcases h with h | h
    · simp [mouseReleaseEvent, h]
    · simp [mouseReleaseEvent, h]
  · intro k
    cases k with
    | escape => rfl
    | other => rfl
    | returnKey => rcases h with h | h <;> simp [keyPressEvent, h]
    | enterKey => rcases h with h | h <;> simp [keyPressEvent, h]

/-- Witness for C7 at a click-without-drag selection state. -/
theorem c7_degenerate_no_capture_witness :
    mouseReleaseEvent ⟨⟨5, 7⟩, ⟨5, 7⟩, true⟩ ⟨0, 0, 100, 100⟩ = none ∧
    keyPressEvent ⟨⟨5, 7⟩, ⟨5, 7⟩, true⟩ ⟨0, 0, 100, 100⟩ Key.returnKey = none :=
  ⟨(c7_degenerate_no_capture ⟨⟨5, 7⟩, ⟨5, 7⟩, true⟩ ⟨0, 0, 100, 100⟩
      (Or.inl rfl)).1,
   (c7_degenerate_no_capture ⟨⟨5, 7⟩, ⟨5, 7⟩, true⟩ ⟨0, 0, 100, 100⟩
      (Or.inl rfl)).2 Key.returnKey⟩

/-- C8 counterexample: the Gemini adapter has no dedicated non-streaming
branch: with streaming disabled its get_response runs the same iteration
path over the non-streamed response, which iterates as a single chunk
carrying the complete text, and every emission strips only trailing
newlines. On the complete response text consisting of a space followed by
Hello, the adapter surfaces exactly one output notification whose text
keeps the leading space, which differs from the response with surrounding
whitespace trimmed: the claim fails for the Gemini adapter. -/
theorem c8_gemini_not_whitespace_trimmed :
    fragTexts (gemini_get_response false
        ⟨false, [StreamEvent.chunk " Hello"]⟩ none).1
      = [" Hello"] ∧
    pyStrip " Hello" = "Hello" ∧
    (" Hello" : String) ≠ "Hello" := by
  refine ⟨by decide, by decide, by decide⟩

/-- C8 (amended to the OpenAI-compatible adapter, whose non-streaming
branch is the one carrying the surrounding-whitespace trim): with
streaming disabled in the global configuration, the OpenAI-compatible
adapter surfaces exactly one output notification whose text is the
complete response content with surrounding whitespace trimmed, followed
by the completion notification. -/
theorem c8_nonstreaming_single_notification (close0 : Bool)
    (events : List (StreamEvent (Option String))) (full : OpenAIFullResponse)
    (cancelAt : Option Nat) :
    (openai_get_response close0 false events full cancelAt).1
      = [Notif.fragment (pyStrip full.content), Notif.complete] ∧
    fragTexts (openai_get_response close0 false events full cancelAt).1
      = [pyStrip full.content] :=
  ⟨rfl, rfl⟩

/-- C9: selection-rectangle normalization is idempotent: for the
rectangle given by any two points, normalizing the already-normalized
rectangle yields the same rectangle. -/
theorem c9_normalized_idempotent (p1 p2 : Point) :
    ((rectFromPoints p1 p2).normalized).normalized
      = (rectFromPoints p1 p2).normalized := by
  simp only [rectFromPoints, Rect.normalized, Rect.mk.injEq]
  refine ⟨?_, ?_, ?_, ?_⟩ <;> split_ifs <;> omega

/-- C10: on every termination path of a streaming loop (normal
completion, mid-stream error, or cooperative cancellation) the finally
clause resets close_requested to false before the call returns, and the
surfaced notifications never depend on the flag value left by a previous
request, so a cancellation issued during one request never suppresses
fragments of a later request on the same adapter instance. -/
theorem c10_close_requested_reset (close0 close1 : Bool)
    (events : List (StreamEvent String))
    (eventsO : List (StreamEvent (Option String))) (full : OpenAIFullResponse)
    (cancelAt : Option Nat) :
    (gemini_get_response close0 ⟨false, events⟩ cancelAt).2 = false ∧
    (openai_get_response close0 true eventsO full cancelAt).2 = false ∧
    gemini_get_response close1 ⟨false, events⟩ cancelAt
      = gemini_get_response false ⟨false, events⟩ cancelAt ∧
    openai_get_response close1 true eventsO full cancelAt
      = openai_get_response false true eventsO full cancelAt :=
  ⟨rfl, rfl, rfl, rfl⟩

end WritingTools
